import Mathlib

/-!
Shallow embedding of the 6502 CPU simulator (`src/nes_emulator/src/cpu.rs`).

Machine integers are modelled as `Nat` with explicit reductions:
`% 256` encodes the `u8` type and `% 65536` the `u16` type at the points
where the Rust types guarantee the range (array element reads, casts,
wrapping arithmetic).  Signed 8-bit interpretation (`as i8`) is `toI8`.
Rust `panic!`/`assert!`/`unwrap` are modelled by the `Fatal` error type and
`Except`; `&mut self` methods returning `Result<(), _>` are modelled as
functions returning the (possibly unchanged) state paired with the result.
-/

namespace Nes

/-- Address of the reset vector (`INIT_PROGRAM_COUNTER_ADDR`). -/
def INIT_PROGRAM_COUNTER_ADDR : Nat := 0xfffc

/-- Maximum address (`MEM_ADDR_MAX`). -/
def MEM_ADDR_MAX : Nat := 0xffff

/-- Size of the address space (`MEM_ADDR_SPACE_SIZE`). -/
def MEM_ADDR_SPACE_SIZE : Nat := MEM_ADDR_MAX + 1

/-- Start of program ROM (`MEM_PRG_ROM_ADDR_START`). -/
def MEM_PRG_ROM_ADDR_START : Nat := 0x8000

/-- Sentinel address returned for `NoneAddressing` (`DEBUG_ADDR`). -/
def DEBUG_ADDR : Nat := 0xffff

/-- Opcode byte of BRK (`OPCODE_BRK`). -/
def OPCODE_BRK : Nat := 0x00

/-- Interpretation of a `u8` bit pattern as a signed 8-bit value
(Rust `as i8` on a byte; takes the low 8 bits first as the `u16 as i8`
cast does). -/
def toI8 (v : Nat) : Int :=
  if v % 256 < 128 then (v % 256 : Int) else (v % 256 : Int) - 256

/-- Rust `u16::overflowing_add`. -/
def overflowing_add16 (a b : Nat) : Nat × Bool :=
  ((a + b) % 65536, decide (65536 ≤ a % 65536 + b % 65536))

/-- Rust `u16::overflowing_sub`. -/
def overflowing_sub16 (a b : Nat) : Nat × Bool :=
  ((a % 65536 + 65536 - b % 65536) % 65536, decide (a % 65536 < b % 65536))

/-- Panics and assertion failures of the source (`panic!`, `assert_eq!`,
`unwrap`, `todo!`).  `unimplementedOpcode` is the `todo!`-panic raised by
`CPU::step` on an opcode byte missing from the table; it carries exactly
what the panic message is formatted from, namely the fetched byte. -/
inductive Fatal where
  | unimplementedOpcode (opcode : Nat)
  | msg (s : String)
deriving DecidableEq

/-- Memory of the 6502 (`Mem`): 64KB of bytes.  Addresses are `Nat`
reduced `% 65536`, stored values are reduced `% 256` (the `u8` element
type). -/
structure Mem where
  data : Nat → Nat

/-- `Mem::new`: zero-initialized memory. -/
def Mem.new : Mem := ⟨fun _ => 0⟩

/-- `Mem::read`: total read of one byte. -/
def Mem.read (m : Mem) (addr : Nat) : Nat :=
  m.data (addr % 65536) % 256

/-- `Mem::write`: total write of one byte. -/
def Mem.write (m : Mem) (addr val : Nat) : Mem :=
  ⟨fun a => if a = addr % 65536 then val % 256 else m.data a⟩

/-- `Mem::read16`: little-endian two-byte read; rejects `addr = 0xffff`. -/
def Mem.read16 (m : Mem) (addr : Nat) : Except String Nat :=
  if addr % 65536 = MEM_ADDR_MAX then
    .error "cannot read two bytes starting from address 0xffff"
  else
    let lo := m.read addr
    let hi := m.read ((addr + 1) % 65536)
    .ok ((hi <<< 8) ||| lo)

/-- `Mem::write16`: little-endian two-byte write; rejects `addr = 0xffff`.
Mirrors `&mut self`: returns the resulting memory (unchanged on error,
since the source returns `Err` before writing anything) together with the
`Result`. -/
def Mem.write16 (m : Mem) (addr val : Nat) : Mem × Except String Unit :=
  if addr % 65536 = MEM_ADDR_MAX then
    (m, .error "cannot write two bytes at address 0xffff")
  else
    let lo := val % 256
    let m1 := m.write addr lo
    let hi := (val % 65536) >>> 8
    let m2 := m1.write ((addr + 1) % 65536) hi
    (m2, .ok ())

/-- Helper for `Mem::write_range`: the loop writing `val[i]` at
`start_addr + i`. -/
def Mem.write_list (m : Mem) (start : Nat) : List Nat → Mem
  | [] => m
  | v :: rest => ((m.write start v).write_list (start + 1)) rest

/-- `Mem::write_range`: bulk copy, rejected if it exceeds the address
space; no partial write on failure. -/
def Mem.write_range (m : Mem) (start_addr : Nat) (val : List Nat) :
    Mem × Except String Unit :=
  if 65536 < start_addr % 65536 + val.length then
    (m, .error "Range exceeds the memory space")
  else
    (m.write_list (start_addr % 65536) val, .ok ())

/-- Status register (`Status` bitflags): seven independent boolean
flags. -/
structure Status where
  c : Bool
  z : Bool
  i : Bool
  d : Bool
  b : Bool
  v : Bool
  n : Bool
deriving DecidableEq

/-- `Status::empty()`: all flags clear. -/
def Status.empty : Status :=
  ⟨false, false, false, false, false, false, false⟩

/-- Addressing modes (`AddressingMode`). -/
inductive AddressingMode where
  | Immediate
  | ZeroPage
  | ZeroPageX
  | ZeroPageY
  | Absolute
  | AbsoluteX
  | AbsoluteY
  | Indirect
  | IndirectX
  | IndirectY
  | Accumulator
  | Relative
  | NoneAddressing
deriving DecidableEq

/-- Instruction-table entry (`OpCode`). -/
structure OpCode where
  code : Nat
  name : String
  bytes : Nat
  cycles : Nat
  addressing_mode : AddressingMode
deriving DecidableEq

/-- The CPU state (`CPU`). -/
structure CPU where
  reg_a : Nat
  reg_x : Nat
  reg_y : Nat
  reg_status : Status
  pc : Nat
  mem : Mem

/-- `CPU::new`: zero-initialized CPU. -/
def CPU.new : CPU :=
  { reg_a := 0, reg_x := 0, reg_y := 0, reg_status := Status.empty,
    pc := 0, mem := Mem.new }

/-- Chunk 0 of the hardcoded instruction table (split only to keep
list-literal elaboration cheap; `OPCODES` below is their concatenation). -/
def OPCODES_0 : List OpCode := [
  ⟨0x69, "ADC", 2, 2, .Immediate⟩,
  ⟨0x65, "ADC", 2, 3, .ZeroPage⟩,
  ⟨0x75, "ADC", 2, 4, .ZeroPageX⟩,
  ⟨0x6d, "ADC", 3, 4, .Absolute⟩,
  ⟨0x7d, "ADC", 3, 4, .AbsoluteX⟩,
  ⟨0x79, "ADC", 3, 4, .AbsoluteY⟩,
  ⟨0x61, "ADC", 2, 6, .IndirectX⟩,
  ⟨0x71, "ADC", 2, 5, .IndirectY⟩,
  ⟨0x29, "AND", 2, 2, .Immediate⟩,
  ⟨0x25, "AND", 2, 3, .ZeroPage⟩,
  ⟨0x35, "AND", 2, 4, .ZeroPageX⟩,
  ⟨0x2d, "AND", 3, 4, .Absolute⟩,
  ⟨0x3d, "AND", 3, 4, .AbsoluteX⟩,
  ⟨0x39, "AND", 3, 4, .AbsoluteY⟩,
  ⟨0x21, "AND", 2, 6, .IndirectX⟩,
  ⟨0x31, "AND", 2, 5, .IndirectY⟩,
  ⟨0x0a, "ASL", 1, 2, .Accumulator⟩,
  ⟨0x06, "ASL", 2, 5, .ZeroPage⟩,
  ⟨0x16, "ASL", 2, 6, .ZeroPageX⟩,
  ⟨0x0e, "ASL", 3, 6, .Absolute⟩,
  ⟨0x1e, "ASL", 3, 7, .AbsoluteX⟩,
  ⟨0x90, "BCC", 2, 2, .Relative⟩,
  ⟨0xb0, "BCS", 2, 2, .Relative⟩,
  ⟨0x00, "BRK", 1, 7, .NoneAddressing⟩,
  ⟨0x18, "CLC", 1, 2, .NoneAddressing⟩,
  ⟨0xd8, "CLD", 1, 2, .NoneAddressing⟩,
  ⟨0x58, "CLI", 1, 2, .NoneAddressing⟩
  ]

/-- Chunk 1 of the hardcoded instruction table (split only to keep
list-literal elaboration cheap; `OPCODES` below is their concatenation). -/
def OPCODES_1 : List OpCode := [
  ⟨0xb8, "CLV", 1, 2, .NoneAddressing⟩,
  ⟨0x49, "EOR", 2, 2, .Immediate⟩,
  ⟨0x45, "EOR", 2, 3, .ZeroPage⟩,
  ⟨0x55, "EOR", 2, 4, .ZeroPageX⟩,
  ⟨0x4d, "EOR", 3, 4, .Absolute⟩,
  ⟨0x5d, "EOR", 3, 4, .AbsoluteX⟩,
  ⟨0x59, "EOR", 3, 4, .AbsoluteY⟩,
  ⟨0x41, "EOR", 2, 6, .IndirectX⟩,
  ⟨0x51, "EOR", 2, 5, .IndirectY⟩,
  ⟨0x4c, "JMP", 3, 3, .Absolute⟩,
  ⟨0x6c, "JMP", 3, 5, .Indirect⟩,
  ⟨0xa9, "LDA", 2, 2, .Immediate⟩,
  ⟨0xa5, "LDA", 2, 2, .ZeroPage⟩,
  ⟨0xb5, "LDA", 2, 2, .ZeroPageX⟩,
  ⟨0xad, "LDA", 3, 4, .Absolute⟩,
  ⟨0xbd, "LDA", 3, 4, .AbsoluteX⟩,
  ⟨0xb9, "LDA", 3, 4, .AbsoluteY⟩,
  ⟨0xa1, "LDA", 2, 6, .IndirectX⟩,
  ⟨0xb1, "LDA", 2, 5, .IndirectY⟩,
  ⟨0xa2, "LDX", 2, 2, .Immediate⟩,
  ⟨0xa6, "LDX", 2, 3, .ZeroPage⟩,
  ⟨0xb6, "LDX", 2, 4, .ZeroPageY⟩,
  ⟨0xae, "LDX", 3, 4, .Absolute⟩,
  ⟨0xbe, "LDX", 3, 4, .AbsoluteY⟩,
  ⟨0xa0, "LDY", 2, 2, .Immediate⟩,
  ⟨0xa4, "LDY", 2, 3, .ZeroPage⟩,
  ⟨0xb4, "LDY", 2, 4, .ZeroPageX⟩
  ]

/-- Chunk 2 of the hardcoded instruction table (split only to keep
list-literal elaboration cheap; `OPCODES` below is their concatenation). -/
def OPCODES_2 : List OpCode := [
  ⟨0xac, "LDY", 3, 4, .Absolute⟩,
  ⟨0xbc, "LDY", 3, 4, .AbsoluteX⟩,
  ⟨0x4a, "LSR", 1, 2, .Accumulator⟩,
  ⟨0x46, "LSR", 2, 5, .ZeroPage⟩,
  ⟨0x56, "LSR", 2, 6, .ZeroPageX⟩,
  ⟨0x4e, "LSR", 3, 6, .Absolute⟩,
  ⟨0x5e, "LSR", 3, 7, .AbsoluteX⟩,
  ⟨0x09, "ORA", 2, 2, .Immediate⟩,
  ⟨0x05, "ORA", 2, 3, .ZeroPage⟩,
  ⟨0x15, "ORA", 2, 4, .ZeroPageX⟩,
  ⟨0x0d, "ORA", 3, 4, .Absolute⟩,
  ⟨0x1d, "ORA", 3, 4, .AbsoluteX⟩,
  ⟨0x19, "ORA", 3, 4, .AbsoluteY⟩,
  ⟨0x01, "ORA", 2, 6, .IndirectX⟩,
  ⟨0x11, "ORA", 2, 5, .IndirectY⟩,
  ⟨0x2a, "ROL", 1, 2, .Accumulator⟩,
  ⟨0x26, "ROL", 2, 5, .ZeroPage⟩,
  ⟨0x36, "ROL", 2, 6, .ZeroPageX⟩,
  ⟨0x2e, "ROL", 3, 6, .Absolute⟩,
  ⟨0x3e, "ROL", 3, 7, .AbsoluteX⟩,
  ⟨0x6a, "ROR", 1, 2, .Accumulator⟩,
  ⟨0x66, "ROR", 2, 5, .ZeroPage⟩,
  ⟨0x76, "ROR", 2, 6, .ZeroPageX⟩,
  ⟨0x6e, "ROR", 3, 6, .Absolute⟩,
  ⟨0x7e, "ROR", 3, 7, .AbsoluteX⟩,
  ⟨0x85, "STA", 2, 3, .ZeroPage⟩,
  ⟨0x95, "STA", 2, 4, .ZeroPageX⟩
  ]

/-- Chunk 3 of the hardcoded instruction table (split only to keep
list-literal elaboration cheap; `OPCODES` below is their concatenation). -/
def OPCODES_3 : List OpCode := [
  ⟨0x8d, "STA", 3, 4, .Absolute⟩,
  ⟨0x9d, "STA", 3, 5, .AbsoluteX⟩,
  ⟨0x99, "STA", 3, 5, .AbsoluteY⟩,
  ⟨0x81, "STA", 2, 6, .IndirectX⟩,
  ⟨0x91, "STA", 2, 6, .IndirectY⟩,
  ⟨0x86, "STX", 2, 3, .ZeroPage⟩,
  ⟨0x96, "STX", 2, 4, .ZeroPageY⟩,
  ⟨0x8e, "STX", 3, 4, .Absolute⟩,
  ⟨0x84, "STY", 2, 3, .ZeroPage⟩,
  ⟨0x94, "STY", 2, 4, .ZeroPageX⟩,
  ⟨0x8c, "STY", 3, 4, .Absolute⟩,
  ⟨0xe8, "INX", 1, 2, .NoneAddressing⟩,
  ⟨0xaa, "TAX", 1, 2, .NoneAddressing⟩,
  ⟨0xa8, "TAY", 1, 2, .NoneAddressing⟩,
  ⟨0x8a, "TXA", 1, 2, .NoneAddressing⟩,
  ⟨0x98, "TYA", 1, 2, .NoneAddressing⟩,
  ⟨0xe9, "SBC", 2, 2, .Immediate⟩,
  ⟨0xe5, "SBC", 2, 3, .ZeroPage⟩,
  ⟨0xf5, "SBC", 2, 4, .ZeroPageX⟩,
  ⟨0xed, "SBC", 3, 4, .Absolute⟩,
  ⟨0xfd, "SBC", 3, 4, .AbsoluteX⟩,
  ⟨0xf9, "SBC", 3, 4, .AbsoluteY⟩,
  ⟨0xe1, "SBC", 2, 6, .IndirectX⟩,
  ⟨0xf1, "SBC", 2, 5, .IndirectY⟩,
  ⟨0x38, "SEC", 1, 2, .NoneAddressing⟩,
  ⟨0xf8, "SED", 1, 2, .NoneAddressing⟩,
  ⟨0x78, "SEI", 1, 2, .NoneAddressing⟩
  ]

/-- The hardcoded instruction table (`OPCODES`). -/
def OPCODES : List OpCode := OPCODES_0 ++ OPCODES_1 ++ OPCODES_2 ++ OPCODES_3

/-- Lookup in the instruction table (`OPCODE_MAP`); opcode bytes are
unique in `OPCODES`, so first-match lookup agrees with the source's
`HashMap`. -/
def OPCODE_MAP (code : Nat) : Option OpCode :=
  OPCODES.find? (fun o => o.code == code)

/-- `CPU::read_mem`. -/
def CPU.read_mem (st : CPU) (addr : Nat) : Nat :=
  st.mem.read addr

/-- `CPU::read_mem16`; the source `unwrap`s the `Result`, turning a
memory-layer error into a panic. -/
def CPU.read_mem16 (st : CPU) (addr : Nat) : Except Fatal Nat :=
  match st.mem.read16 addr with
  | .ok v => .ok v
  | .error e => .error (.msg e)

/-- `CPU::write_mem`. -/
def CPU.write_mem (st : CPU) (addr val : Nat) : CPU :=
  {st with mem := st.mem.write addr val}

/-- `CPU::set_negative_flag`: copies bit 7 of `register` into N. -/
def CPU.set_negative_flag (st : CPU) (register : Nat) : CPU :=
  if register &&& 0b10000000 = 0 then
    {st with reg_status := {st.reg_status with n := false}}
  else
    {st with reg_status := {st.reg_status with n := true}}

/-- `CPU::set_zero_flag`: sets Z iff `register` is zero. -/
def CPU.set_zero_flag (st : CPU) (register : Nat) : CPU :=
  if register = 0 then
    {st with reg_status := {st.reg_status with z := true}}
  else
    {st with reg_status := {st.reg_status with z := false}}

/-- `CPU::set_reg_a`: writes A and updates N/Z from it. -/
def CPU.set_reg_a (st : CPU) (val : Nat) : CPU :=
  let st1 := {st with reg_a := val}
  (st1.set_negative_flag st1.reg_a).set_zero_flag st1.reg_a

/-- `CPU::add_to_reg_a`: the shared ADC/SBC adder with V/C flag logic. -/
def CPU.add_to_reg_a (st : CPU) (val : Nat) : CPU :=
  let carrier : Nat := if st.reg_status.c then 1 else 0
  let signed_result : Int := toI8 st.reg_a + toI8 val + (carrier : Int)
  let st1 :=
    if 127 < signed_result ∨ signed_result < -128 then
      {st with reg_status := {st.reg_status with v := true}}
    else
      {st with reg_status := {st.reg_status with v := false}}
  let unsigned_result : Nat := st.reg_a + val + carrier
  let st2 :=
    if 255 < unsigned_result then
      {st1 with reg_status := {st1.reg_status with c := true}}
    else
      {st1 with reg_status := {st1.reg_status with c := false}}
  st2.set_reg_a (unsigned_result % 256)

/-- `CPU::get_operand_address`: `pc.wrapping_add(1)`. -/
def CPU.get_operand_address (st : CPU) : Nat :=
  (st.pc + 1) % 65536

/-- `CPU::calc_new_pc`.  In the source the two inner
`let (new_pc, overflow) = ...` bindings inside the `if` arms shadow the
outer variables and go out of scope at the end of each arm, so the
function always returns the outer values `(0, false)`.  The embedding
mirrors this: the if-expression's value is bound to `_` and discarded. -/
def CPU.calc_new_pc (st : CPU) (relative_addr : Int) : Nat × Bool :=
  let new_pc : Nat := 0
  let overflow : Bool := false
  let _ :=
    if 0 < relative_addr then
      overflowing_add16 st.pc relative_addr.toNat
    else
      overflowing_sub16 st.pc (-relative_addr).toNat
  (new_pc, overflow)

/-- `CPU::read_mem_operand`: the addressing resolver. -/
def CPU.read_mem_operand (st : CPU) (addr : Nat) (addr_mode : AddressingMode) :
    Except Fatal Nat :=
  match addr_mode with
  | .Immediate => .ok addr
  | .ZeroPage => .ok (st.read_mem addr)
  | .ZeroPageX => .ok ((st.read_mem addr + st.reg_x) % 256)
  | .ZeroPageY => .ok ((st.read_mem addr + st.reg_y) % 256)
  | .Absolute => st.read_mem16 addr
  | .AbsoluteX =>
    match st.read_mem16 addr with
    | .ok a => .ok ((a + st.reg_x) % 65536)
    | .error e => .error e
  | .AbsoluteY =>
    match st.read_mem16 addr with
    | .ok a => .ok ((a + st.reg_y) % 65536)
    | .error e => .error e
  | .Indirect =>
    match st.read_mem16 addr with
    | .ok addr_of_addr => st.read_mem16 addr_of_addr
    | .error e => .error e
  | .IndirectX =>
    let a := (st.read_mem addr + st.reg_x) % 256
    st.read_mem16 a
  | .IndirectY =>
    match st.read_mem16 addr with
    | .ok a =>
      match st.read_mem16 a with
      | .ok target => .ok ((target + st.reg_y) % 65536)
      | .error e => .error e
    | .error e => .error e
  | .Relative => .ok addr
  | .Accumulator =>
    .error (.msg "should not read operand address when addressing mode is Accumulator")
  | .NoneAddressing => .ok DEBUG_ADDR

/-- `CPU::adc`. -/
def CPU.adc (st : CPU) (addr_mode : AddressingMode) : Except Fatal CPU :=
  match st.read_mem_operand st.get_operand_address addr_mode with
  | .error e => .error e
  | .ok addr =>
    let val := st.read_mem addr
    .ok (st.add_to_reg_a val)

/-- `CPU::and`. -/
def CPU.and (st : CPU) (addr_mode : AddressingMode) : Except Fatal CPU :=
  match st.read_mem_operand st.get_operand_address addr_mode with
  | .error e => .error e
  | .ok addr =>
    let val := st.read_mem addr
    .ok (st.set_reg_a (st.reg_a &&& val))

/-- `CPU::asl`.  The `u8` left shift wraps, hence the `% 256`. -/
def CPU.asl (st : CPU) (addr_mode : AddressingMode) : Except Fatal CPU :=
  match addr_mode with
  | .Accumulator =>
    let st1 :=
      if st.reg_a &&& 0b10000000 ≠ 0 then
        {st with reg_status := {st.reg_status with c := true}}
      else
        {st with reg_status := {st.reg_status with c := false}}
    .ok (st1.set_reg_a ((st1.reg_a <<< 1) % 256))
  | _ =>
    match st.read_mem_operand st.get_operand_address addr_mode with
    | .error e => .error e
    | .ok addr =>
      let val := st.read_mem addr
      let st1 :=
        if val &&& 0b10000000 ≠ 0 then
          {st with reg_status := {st.reg_status with c := true}}
        else
          {st with reg_status := {st.reg_status with c := false}}
      let val2 := (val <<< 1) % 256
      let st2 := st1.write_mem addr val2
      .ok ((st2.set_zero_flag val2).set_negative_flag val2)

/-- `CPU::bcc`.  Note two source peculiarities mirrored here: the value
cast `as i8` is the resolver's return value (for `Relative` that is the
operand address `pc + 1`, not the byte stored there), and `calc_new_pc`
always returns `(0, false)` (see its doc comment). -/
def CPU.bcc (st : CPU) (addr_mode : AddressingMode) : Except Fatal CPU :=
  if addr_mode ≠ AddressingMode.Relative then
    .error (.msg "assertion failed: addr_mode == AddressingMode::Relative")
  else if st.reg_status.c then .ok st
  else
    match st.read_mem_operand st.get_operand_address addr_mode with
    | .error e => .error e
    | .ok opv =>
      let relative_addr : Int := toI8 opv
      let p := st.calc_new_pc relative_addr
      if p.2 then
        .error (.msg "branch with a relative address that causes program counter to overflow")
      else
        .ok {st with pc := p.1}

/-- `CPU::bcs`; same structure as `bcc` with the carry test negated. -/
def CPU.bcs (st : CPU) (addr_mode : AddressingMode) : Except Fatal CPU :=
  if addr_mode ≠ AddressingMode.Relative then
    .error (.msg "assertion failed: addr_mode == AddressingMode::Relative")
  else if !st.reg_status.c then .ok st
  else
    match st.read_mem_operand st.get_operand_address addr_mode with
    | .error e => .error e
    | .ok opv =>
      let relative_addr : Int := toI8 opv
      let p := st.calc_new_pc relative_addr
      if p.2 then
        .error (.msg "branch with a relative address that causes program counter to overflow")
      else
        .ok {st with pc := p.1}

/-- `CPU::brk`: no effect on the state. -/
def CPU.brk (st : CPU) (_addr_mode : AddressingMode) : Except Fatal CPU :=
  .ok st

/-- `CPU::clc`. -/
def CPU.clc (st : CPU) (_addr_mode : AddressingMode) : Except Fatal CPU :=
  .ok {st with reg_status := {st.reg_status with c := false}}

/-- `CPU::cld`. -/
def CPU.cld (st : CPU) (_addr_mode : AddressingMode) : Except Fatal CPU :=
  .ok {st with reg_status := {st.reg_status with d := false}}

/-- `CPU::cli`. -/
def CPU.cli (st : CPU) (_addr_mode : AddressingMode) : Except Fatal CPU :=
  .ok {st with reg_status := {st.reg_status with i := false}}

/-- `CPU::clv`. -/
def CPU.clv (st : CPU) (_addr_mode : AddressingMode) : Except Fatal CPU :=
  .ok {st with reg_status := {st.reg_status with v := false}}

/-- `CPU::eor`. -/
def CPU.eor (st : CPU) (addr_mode : AddressingMode) : Except Fatal CPU :=
  match st.read_mem_operand st.get_operand_address addr_mode with
  | .error e => .error e
  | .ok addr =>
    let val := st.read_mem addr
    .ok (st.set_reg_a (st.reg_a ^^^ val))

/-- `CPU::inx`: `u8` increment with wraparound (`overflowing_add`), then
N/Z update. -/
def CPU.inx (st : CPU) (_addr_mode : AddressingMode) : Except Fatal CPU :=
  let val_x := (st.reg_x + 1) % 256
  let st1 := {st with reg_x := val_x}
  .ok ((st1.set_negative_flag st1.reg_x).set_zero_flag st1.reg_x)

/-- `CPU::jmp`. -/
def CPU.jmp (st : CPU) (addr_mode : AddressingMode) : Except Fatal CPU :=
  match st.read_mem_operand st.get_operand_address addr_mode with
  | .error e => .error e
  | .ok addr => .ok {st with pc := addr}

/-- `CPU::lda`. -/
def CPU.lda (st : CPU) (addr_mode : AddressingMode) : Except Fatal CPU :=
  match st.read_mem_operand st.get_operand_address addr_mode with
  | .error e => .error e
  | .ok addr =>
    let st1 := {st with reg_a := st.read_mem addr}
    .ok ((st1.set_negative_flag st1.reg_a).set_zero_flag st1.reg_a)

/-- `CPU::ldx`. -/
def CPU.ldx (st : CPU) (addr_mode : AddressingMode) : Except Fatal CPU :=
  match st.read_mem_operand st.get_operand_address addr_mode with
  | .error e => .error e
  | .ok addr =>
    let st1 := {st with reg_x := st.read_mem addr}
    .ok ((st1.set_negative_flag st1.reg_x).set_zero_flag st1.reg_x)

/-- `CPU::ldy`. -/
def CPU.ldy (st : CPU) (addr_mode : AddressingMode) : Except Fatal CPU :=
  match st.read_mem_operand st.get_operand_address addr_mode with
  | .error e => .error e
  | .ok addr =>
    let st1 := {st with reg_y := st.read_mem addr}
    .ok ((st1.set_negative_flag st1.reg_y).set_zero_flag st1.reg_y)

/-- `CPU::lsr`.  The memory branch tests `val & 0b1000_0001` exactly as
the source does (note: not `0b0000_0001`). -/
def CPU.lsr (st : CPU) (addr_mode : AddressingMode) : Except Fatal CPU :=
  match addr_mode with
  | .Accumulator =>
    let st1 :=
      if st.reg_a &&& 0b00000001 ≠ 0 then
        {st with reg_status := {st.reg_status with c := true}}
      else
        {st with reg_status := {st.reg_status with c := false}}
    .ok (st1.set_reg_a (st1.reg_a >>> 1))
  | _ =>
    match st.read_mem_operand st.get_operand_address addr_mode with
    | .error e => .error e
    | .ok addr =>
      let val := st.read_mem addr
      let st1 :=
        if val &&& 0b10000001 ≠ 0 then
          {st with reg_status := {st.reg_status with c := true}}
        else
          {st with reg_status := {st.reg_status with c := false}}
      let val2 := val >>> 1
      let st2 := st1.write_mem addr val2
      .ok ((st2.set_zero_flag val2).set_negative_flag val2)

/-- `CPU::ora`. -/
def CPU.ora (st : CPU) (addr_mode : AddressingMode) : Except Fatal CPU :=
  match st.read_mem_operand st.get_operand_address addr_mode with
  | .error e => .error e
  | .ok addr =>
    let val := st.read_mem addr
    .ok (st.set_reg_a (val ||| st.reg_a))

/-- `CPU::rol`: shifts left, bit 7 to carry, old carry into bit 0. -/
def CPU.rol (st : CPU) (addr_mode : AddressingMode) : Except Fatal CPU :=
  let carrier : Nat := if st.reg_status.c then 0b00000001 else 0b00000000
  match addr_mode with
  | .Accumulator =>
    let st1 :=
      if st.reg_a &&& 0b10000000 ≠ 0 then
        {st with reg_status := {st.reg_status with c := true}}
      else
        {st with reg_status := {st.reg_status with c := false}}
    .ok (st1.set_reg_a (((st1.reg_a <<< 1) % 256) ||| carrier))
  | _ =>
    match st.read_mem_operand st.get_operand_address addr_mode with
    | .error e => .error e
    | .ok addr =>
      let val := st.read_mem addr
      let st1 :=
        if val &&& 0b10000000 ≠ 0 then
          {st with reg_status := {st.reg_status with c := true}}
        else
          {st with reg_status := {st.reg_status with c := false}}
      let val2 := ((val <<< 1) % 256) ||| carrier
      let st2 := st1.write_mem addr val2
      .ok ((st2.set_zero_flag val2).set_negative_flag val2)

/-- `CPU::ror`: shifts right, bit 0 to carry, old carry into bit 7. -/
def CPU.ror (st : CPU) (addr_mode : AddressingMode) : Except Fatal CPU :=
  let carrier : Nat := if st.reg_status.c then 0b10000000 else 0b00000000
  match addr_mode with
  | .Accumulator =>
    let st1 :=
      if st.reg_a &&& 0b00000001 ≠ 0 then
        {st with reg_status := {st.reg_status with c := true}}
      else
        {st with reg_status := {st.reg_status with c := false}}
    .ok (st1.set_reg_a ((st1.reg_a >>> 1) ||| carrier))
  | _ =>
    match st.read_mem_operand st.get_operand_address addr_mode with
    | .error e => .error e
    | .ok addr =>
      let val := st.read_mem addr
      let st1 :=
        if val &&& 0b0000001 ≠ 0 then
          {st with reg_status := {st.reg_status with c := true}}
        else
          {st with reg_status := {st.reg_status with c := false}}
      let val2 := (val >>> 1) ||| carrier
      let st2 := st1.write_mem addr val2
      .ok ((st2.set_zero_flag val2).set_negative_flag val2)

/-- `CPU::sta`. -/
def CPU.sta (st : CPU) (addr_mode : AddressingMode) : Except Fatal CPU :=
  match st.read_mem_operand st.get_operand_address addr_mode with
  | .error e => .error e
  | .ok addr => .ok (st.write_mem addr st.reg_a)

/-- `CPU::stx`. -/
def CPU.stx (st : CPU) (addr_mode : AddressingMode) : Except Fatal CPU :=
  match st.read_mem_operand st.get_operand_address addr_mode with
  | .error e => .error e
  | .ok addr => .ok (st.write_mem addr st.reg_x)

/-- `CPU::sty`. -/
def CPU.sty (st : CPU) (addr_mode : AddressingMode) : Except Fatal CPU :=
  match st.read_mem_operand st.get_operand_address addr_mode with
  | .error e => .error e
  | .ok addr => .ok (st.write_mem addr st.reg_y)

/-- `CPU::tax`. -/
def CPU.tax (st : CPU) (_addr_mode : AddressingMode) : Except Fatal CPU :=
  let st1 := {st with reg_x := st.reg_a}
  .ok ((st1.set_negative_flag st1.reg_x).set_zero_flag st1.reg_x)

/-- `CPU::tay`. -/
def CPU.tay (st : CPU) (_addr_mode : AddressingMode) : Except Fatal CPU :=
  let st1 := {st with reg_y := st.reg_a}
  .ok ((st1.set_negative_flag st1.reg_y).set_zero_flag st1.reg_y)

/-- `CPU::txa`. -/
def CPU.txa (st : CPU) (_addr_mode : AddressingMode) : Except Fatal CPU :=
  let st1 := {st with reg_a := st.reg_x}
  .ok ((st1.set_negative_flag st1.reg_a).set_zero_flag st1.reg_a)

/-- `CPU::tya`. -/
def CPU.tya (st : CPU) (_addr_mode : AddressingMode) : Except Fatal CPU :=
  let st1 := {st with reg_a := st.reg_y}
  .ok ((st1.set_negative_flag st1.reg_a).set_zero_flag st1.reg_a)

/-- `CPU::sbc`: `add_to_reg_a` on the bitwise complement `!val`; the read
value is a byte, for which `!val = 255 - val`. -/
def CPU.sbc (st : CPU) (addr_mode : AddressingMode) : Except Fatal CPU :=
  match st.read_mem_operand st.get_operand_address addr_mode with
  | .error e => .error e
  | .ok addr =>
    let val := st.read_mem addr
    .ok (st.add_to_reg_a (255 - val))

/-- `CPU::sec`. -/
def CPU.sec (st : CPU) (_addr_mode : AddressingMode) : Except Fatal CPU :=
  .ok {st with reg_status := {st.reg_status with c := true}}

/-- `CPU::sed`. -/
def CPU.sed (st : CPU) (_addr_mode : AddressingMode) : Except Fatal CPU :=
  .ok {st with reg_status := {st.reg_status with d := true}}

/-- `CPU::sei`. -/
def CPU.sei (st : CPU) (_addr_mode : AddressingMode) : Except Fatal CPU :=
  .ok {st with reg_status := {st.reg_status with i := true}}

/-- The handler map (`INSTRUCTION_HANDLERS`): opcode byte to handler
function.  Exactly the `map.insert` calls of the source (the duplicate
insert of SBC absolute is harmless in a map). -/
def INSTRUCTION_HANDLERS (code : Nat) :
    Option (CPU → AddressingMode → Except Fatal CPU) :=
  match code with
  | 0x69 | 0x65 | 0x75 | 0x6d | 0x7d | 0x79 | 0x61 | 0x71 => some CPU.adc
  | 0x29 | 0x25 | 0x35 | 0x2d | 0x3d | 0x39 | 0x21 | 0x31 => some CPU.and
  | 0x0a | 0x06 | 0x16 | 0x0e | 0x1e => some CPU.asl
  | 0x90 => some CPU.bcc
  | 0xb0 => some CPU.bcs
  | 0x00 => some CPU.brk
  | 0x18 => some CPU.clc
  | 0xd8 => some CPU.cld
  | 0x58 => some CPU.cli
  | 0xb8 => some CPU.clv
  | 0x49 | 0x45 | 0x55 | 0x4d | 0x5d | 0x59 | 0x41 | 0x51 => some CPU.eor
  | 0xa9 | 0xa5 | 0xb5 | 0xad | 0xbd | 0xb9 | 0xa1 | 0xb1 => some CPU.lda
  | 0xa2 | 0xa6 | 0xb6 | 0xae | 0xbe => some CPU.ldx
  | 0xa0 | 0xa4 | 0xb4 | 0xac | 0xbc => some CPU.ldy
  | 0x4a | 0x46 | 0x56 | 0x4e | 0x5e => some CPU.lsr
  | 0x09 | 0x05 | 0x15 | 0x0d | 0x1d | 0x19 | 0x01 | 0x11 => some CPU.ora
  | 0x2a | 0x26 | 0x36 | 0x2e | 0x3e => some CPU.rol
  | 0x6a | 0x66 | 0x76 | 0x6e | 0x7e => some CPU.ror
  | 0x85 | 0x95 | 0x8d | 0x9d | 0x99 | 0x81 | 0x91 => some CPU.sta
  | 0x86 | 0x96 | 0x8e => some CPU.stx
  | 0x84 | 0x94 | 0x8c => some CPU.sty
  | 0x4c | 0x6c => some CPU.jmp
  | 0xe8 => some CPU.inx
  | 0xaa => some CPU.tax
  | 0xa8 => some CPU.tay
  | 0x8a => some CPU.txa
  | 0x98 => some CPU.tya
  | 0xe9 | 0xe5 | 0xf5 | 0xed | 0xfd | 0xf9 | 0xe1 | 0xf1 => some CPU.sbc
  | 0x38 => some CPU.sec
  | 0xf8 => some CPU.sed
  | 0x78 => some CPU.sei
  | _ => none

/-- `CPU::dispatch_instruction`: runs the handler, advances the program
counter by the declared instruction length when the handler left it
unchanged, and reports whether execution continues (false exactly for
BRK).  The `unwrap` of the handler lookup is a potential panic. -/
def CPU.dispatch_instruction (st : CPU) (opcode : OpCode) :
    Except Fatal (CPU × Bool) :=
  let curr_pc := st.pc
  match INSTRUCTION_HANDLERS opcode.code with
  | none => .error (.msg "called unwrap on a None value")
  | some handler =>
    match handler st opcode.addressing_mode with
    | .error e => .error e
    | .ok st1 =>
      let st2 :=
        if curr_pc = st1.pc then
          {st1 with pc := (st1.pc + opcode.bytes) % 65536}
        else st1
      .ok (st2, if opcode.code = OPCODE_BRK then false else true)

/-- `CPU::step`: fetch, table lookup, dispatch.  A byte with no table
entry raises the `todo!` panic carrying that byte. -/
def CPU.step (st : CPU) : Except Fatal (CPU × Bool) :=
  let val := st.read_mem st.pc
  match OPCODE_MAP val with
  | some opcode => st.dispatch_instruction opcode
  | none => .error (.unimplementedOpcode val)

/-- The loop of `CPU::run`, with explicit fuel; `.ok none` means the fuel
ran out before a BRK. -/
def CPU.runLoop (fuel : Nat) (st : CPU) : Except Fatal (Option CPU) :=
  match fuel with
  | 0 => .ok none
  | fuel + 1 =>
    match st.step with
    | .error e => .error e
    | .ok (st1, cont) =>
      if cont then st1.runLoop fuel else .ok (some st1)

/-- `CPU::run`: unconditionally sets the program counter to the start of
program ROM, then steps until BRK. -/
def CPU.run (st : CPU) (fuel : Nat) : Except Fatal (Option CPU) :=
  CPU.runLoop fuel {st with pc := MEM_PRG_ROM_ADDR_START}

/-- `CPU::load`: writes the program bytes at 0x8000 and points the reset
vector at 0x8000. -/
def CPU.load (st : CPU) (program : List Nat) : CPU × Except String Unit :=
  let p1 := st.mem.write_range MEM_PRG_ROM_ADDR_START program
  match p1.2 with
  | .error e => ({st with mem := p1.1}, .error e)
  | .ok _ =>
    let p2 := p1.1.write16 INIT_PROGRAM_COUNTER_ADDR MEM_PRG_ROM_ADDR_START
    ({st with mem := p2.1}, p2.2)

/-- `CPU::reset`: clears registers and flags and loads the program
counter from the reset vector (the `unwrap` is a potential panic). -/
def CPU.reset (st : CPU) : Except Fatal CPU :=
  match st.mem.read16 INIT_PROGRAM_COUNTER_ADDR with
  | .error e => .error (.msg e)
  | .ok v =>
    .ok {st with reg_a := 0, reg_x := 0, reg_y := 0,
                 reg_status := Status.empty, pc := v}

/-- Errors observable from `CPU::interpret`: a load error returned as
`Err`, or a panic raised during reset/run. -/
inductive RunError where
  | loadErr (e : String)
  | fatal (e : Fatal)
deriving DecidableEq

/-- `CPU::interpret`: load, reset, run. -/
def CPU.interpret (st : CPU) (program : List Nat) (fuel : Nat) :
    Except RunError (Option CPU) :=
  let p := st.load program
  match p.2 with
  | .error e => .error (.loadErr e)
  | .ok _ =>
    match p.1.reset with
    | .error e => .error (.fatal e)
    | .ok st1 =>
      match st1.run fuel with
      | .error e => .error (.fatal e)
      | .ok r => .ok r

/-- Concrete state for C1: about to execute a branch at `pc = 0x8001`
whose displacement byte (at `0x8002`) is `+3`; carry is clear. -/
def c1state : CPU :=
  {CPU.new with pc := 0x8001, mem := CPU.new.mem.write 0x8002 3}

/-- The same state with the carry flag set. -/
def c1stateC : CPU :=
  {c1state with reg_status := {c1state.reg_status with c := true}}

/-- Concrete state for C5: `LSR $F0` at `pc = 0x8000` with
`mem[0x00F0] = 0x80` (bit 7 set, bit 0 clear). -/
def c5state : CPU :=
  {CPU.new with
    pc := 0x8000,
    mem := (CPU.new.mem.write 0x8001 0xf0).write 0xf0 0x80}

/-- Concrete state for C6: every byte of memory is `0xff`, an opcode with
no table entry. -/
def c6state : CPU :=
  {CPU.new with mem := ⟨fun _ => 0xff⟩}

/-!  Shared lemmas about the flag helpers. -/

/-- The mask test used by `set_negative_flag` is exactly bit 7. -/
theorem land128_eq_zero_iff (v : Nat) :
    v &&& 0b10000000 = 0 ↔ v.testBit 7 = false := by
  have h : v &&& 2 ^ 7 = (v.testBit 7).toNat * 2 ^ 7 := Nat.and_two_pow v 7
  norm_num at h
  rw [show (0b10000000 : Nat) = 128 from rfl, h]
  cases v.testBit 7 <;> simp

/-- Closed form of `set_negative_flag`. -/
theorem set_negative_flag_eq (st : CPU) (v : Nat) :
    st.set_negative_flag v =
      {st with reg_status := {st.reg_status with n := v.testBit 7}} := by
  unfold CPU.set_negative_flag
  by_cases hc : v &&& 0b10000000 = 0
  · rw [if_pos hc, (land128_eq_zero_iff v).1 hc]
  · have hb : v.testBit 7 = true := by
      rcases hb : v.testBit 7
      · exact absurd ((land128_eq_zero_iff v).2 hb) hc
      · rfl
    rw [if_neg hc, hb]

/-- Closed form of `set_zero_flag`. -/
theorem set_zero_flag_eq (st : CPU) (v : Nat) :
    st.set_zero_flag v =
      {st with reg_status := {st.reg_status with z := decide (v = 0)}} := by
  unfold CPU.set_zero_flag
  by_cases hz : v = 0 <;> simp [hz]

/-- Closed form of `set_reg_a`. -/
theorem set_reg_a_eq (st : CPU) (v : Nat) :
    st.set_reg_a v =
      {st with
        reg_a := v,
        reg_status := {st.reg_status with
          z := decide (v = 0),
          n := v.testBit 7}} := by
  simp only [CPU.set_reg_a]
  rw [set_negative_flag_eq, set_zero_flag_eq]

/-!  C1.  Branch instructions BCC/BCS. -/

/-- C1: refuted on the code.  `calc_new_pc` always returns `(0, false)`
because the recomputed pair is shadowed and dropped, so a taken branch
(BCC with carry clear, BCS with carry set) sets the program counter to
`0x0000` instead of `pc + displacement` (`0x8001 + 3 = 0x8004` here);
an untaken branch does leave the program counter untouched. -/
theorem bcc_bcs_taken_branch_pc_zero :
    ((CPU.bcc c1state .Relative).map (fun st => st.pc) = .ok 0) ∧
    ((CPU.bcs c1stateC .Relative).map (fun st => st.pc) = .ok 0) ∧
    (CPU.bcc c1stateC .Relative = .ok c1stateC) ∧
    ((0 : Nat) ≠ (0x8001 + 3) % 65536) ∧
    (∀ (st : CPU) (rel : Int), st.calc_new_pc rel = (0, false)) :=
  ⟨rfl, rfl, rfl, by decide, fun _ _ => rfl⟩

/-!  C5.  Shift/rotate carry semantics. -/

/-- C5: refuted on the code for the memory form of LSR.  Shifting the
byte `0x80` right stores `0x40` and must clear carry (the bit shifted
out, bit 0 of `0x80`, is 0), but the source tests `val & 0b1000_0001`,
so bit 7 also sets the carry: the run below ends with carry set. -/
theorem lsr_memory_carry_includes_bit7 :
    ((CPU.lsr c5state .ZeroPage).map
      (fun st => (st.reg_status.c, st.mem.read 0xf0)) = .ok (true, 0x40)) ∧
    Nat.testBit 0x80 0 = false :=
  ⟨rfl, by decide⟩

/-!  C6.  Unimplemented-opcode handling in `step`. -/

/-- C6 counterexample: the reported condition does not carry the program
counter.  Two states that fetch the same unknown opcode byte `0xff` at
different program counters produce identical reports, so the report
cannot determine the program counter at fetch time. -/
theorem step_unimplemented_report_lacks_pc :
    CPU.step {c6state with pc := 0x1000} =
      CPU.step {c6state with pc := 0x2000} ∧
    ({c6state with pc := 0x1000}).pc ≠ ({c6state with pc := 0x2000}).pc :=
  ⟨rfl, by decide⟩

/-- C6 amended: when the fetched opcode byte has no entry in the
instruction table, `step` halts execution with the unimplemented-opcode
panic carrying that byte (but not the program counter), rather than
advancing past the byte. -/
theorem step_unimplemented_reports_byte (st : CPU)
    (h : OPCODE_MAP (st.read_mem st.pc) = none) :
    st.step = .error (.unimplementedOpcode (st.read_mem st.pc)) := by
  simp only [CPU.step]
  rw [h]

/-- Witness for `step_unimplemented_reports_byte` at `c6state`. -/
theorem step_unimplemented_reports_byte_witness :
    c6state.step = .error (.unimplementedOpcode (c6state.read_mem c6state.pc)) :=
  step_unimplemented_reports_byte c6state rfl

/-!  C9.  Resolver behavior on Accumulator / NoneAddressing. -/

/-- C9 counterexample: resolving `NoneAddressing` does not fail; it
returns the usable sentinel address `0xffff`. -/
theorem none_addressing_resolves_ok :
    CPU.read_mem_operand CPU.new 0 AddressingMode.NoneAddressing =
      .ok 0xffff :=
  rfl

/-- C9 amended: resolving `Accumulator` fails loudly (panic), but
resolving `NoneAddressing` silently returns the sentinel `DEBUG_ADDR`
(`0xffff`) instead of failing. -/
theorem resolver_accumulator_fails_none_addressing_ok
    (st : CPU) (addr : Nat) :
    st.read_mem_operand addr .Accumulator =
      .error (.msg "should not read operand address when addressing mode is Accumulator") ∧
    st.read_mem_operand addr .NoneAddressing = .ok DEBUG_ADDR :=
  ⟨rfl, rfl⟩

/-!  C10.  `run` discards the program counter loaded by `reset`. -/

/-- C10: `reset` loads the program counter from the reset vector at
0xFFFC-0xFFFD, but `run` overwrites the program counter with 0x8000
before stepping, for every state — so the vector value is discarded and
execution always begins at 0x8000. -/
theorem run_discards_reset_pc :
    (∀ (st s' : CPU), CPU.reset st = .ok s' →
      st.mem.read16 INIT_PROGRAM_COUNTER_ADDR = .ok s'.pc) ∧
    (∀ (fuel : Nat) (st : CPU) (p : Nat),
      CPU.run {st with pc := p} fuel = CPU.run st fuel) ∧
    (∀ (st : CPU) (fuel : Nat),
      CPU.run st fuel = CPU.runLoop fuel {st with pc := MEM_PRG_ROM_ADDR_START}) := by
  refine ⟨?_, ?_, ?_⟩
  · intro st s' h
    unfold CPU.reset at h
    cases hr : st.mem.read16 INIT_PROGRAM_COUNTER_ADDR <;> rw [hr] at h
    · exact absurd h (by simp)
    · injection h with h2
      rw [← h2]
  · intro fuel st p
    rfl
  · intro st fuel
    rfl

/-- Witness for `run_discards_reset_pc` (first part, at `CPU.new`). -/
theorem run_discards_reset_pc_witness :
    CPU.new.mem.read16 INIT_PROGRAM_COUNTER_ADDR = .ok (CPU.new.pc) :=
  run_discards_reset_pc.1 CPU.new CPU.new rfl

/-!  More shared lemmas: memory reads after writes, handler runs. -/

/-- Reading back the byte just written. -/
theorem Mem.read_write_self (mm : Mem) (a v : Nat) :
    (mm.write a v).read a = v % 256 := by
  show (if a % 65536 = a % 65536 then v % 256 else mm.data (a % 65536)) % 256
    = v % 256
  rw [if_pos rfl]
  omega

/-- Reading an address other than the one just written. -/
theorem Mem.read_write_other (mm : Mem) (a b v : Nat)
    (h : a % 65536 ≠ b % 65536) :
    (mm.write b v).read a = mm.read a := by
  simp only [Mem.read, Mem.write]
  rw [if_neg h]

/-- Running SBC in immediate mode on an arbitrary state. -/
theorem sbc_immediate_run (st : CPU) :
    CPU.sbc st .Immediate =
      .ok (st.add_to_reg_a (255 - st.read_mem ((st.pc + 1) % 65536))) :=
  rfl

/-- Running ADC in immediate mode on an arbitrary state. -/
theorem adc_immediate_run (st : CPU) :
    CPU.adc st .Immediate =
      .ok (st.add_to_reg_a (st.read_mem ((st.pc + 1) % 65536))) :=
  rfl

/-- `add_to_reg_a` neither reads nor writes memory. -/
theorem add_to_reg_a_mem (st : CPU) (M : Mem) (v : Nat) :
    ({st with mem := M} : CPU).add_to_reg_a v =
      {st.add_to_reg_a v with mem := M} := by
  rcases st with ⟨a, x, y, stt, pc, mm⟩
  simp only [CPU.add_to_reg_a, set_reg_a_eq]
  dsimp only
  split_ifs <;> rfl

/-!  C2.  ADC flag semantics. -/

/-- C2: for every state and operand value, `add_to_reg_a` (the body of
ADC after the operand fetch) sets V iff the signed-8-bit sum plus carry
leaves [-128, 127], sets C iff the unsigned sum exceeds 255, stores the
truncated sum in A and updates N/Z from it; the ADC handler is exactly
`add_to_reg_a` of the fetched operand; and the two concrete examples of
the specification hold. -/
theorem adc_signed_unsigned_flags :
    (∀ (st : CPU) (val : Nat),
      let carrier : Nat := if st.reg_status.c then 1 else 0
      let signed : Int := toI8 st.reg_a + toI8 val + (carrier : Int)
      let sum : Nat := st.reg_a + val + carrier
      let st' := st.add_to_reg_a val
      ((st'.reg_status.v = true) ↔ (127 < signed ∨ signed < -128)) ∧
      ((st'.reg_status.c = true) ↔ 255 < sum) ∧
      st'.reg_a = sum % 256 ∧
      ((st'.reg_status.z = true) ↔ sum % 256 = 0) ∧
      ((st'.reg_status.n = true) ↔ (sum % 256).testBit 7 = true)) ∧
    (∀ (st : CPU) (mode : AddressingMode) (addr : Nat),
      st.read_mem_operand st.get_operand_address mode = .ok addr →
      CPU.adc st mode = .ok (st.add_to_reg_a (st.read_mem addr))) ∧
    ((fun s => (s.reg_a, s.reg_status.n, s.reg_status.v,
                s.reg_status.c, s.reg_status.z))
      (({CPU.new with reg_a := 0x40}).add_to_reg_a 0x40) =
      (0x80, true, true, false, false)) ∧
    ((fun s => (s.reg_a, s.reg_status.v, s.reg_status.c, s.reg_status.z))
      (({CPU.new with reg_a := 0x80}).add_to_reg_a 0x80) =
      (0x00, true, true, true)) := by
  refine ⟨?_, ?_, by decide, by decide⟩
  · intro st val
    simp only [CPU.add_to_reg_a, set_reg_a_eq]
    refine ⟨?_, ?_, ?_, ?_, ?_⟩ <;> (try split_ifs) <;> simp_all
  · intro st mode addr h
    unfold CPU.adc
    rw [h]

/-- Witness for `adc_signed_unsigned_flags` (handler part, immediate
mode at `CPU.new`). -/
theorem adc_signed_unsigned_flags_witness :
    CPU.adc CPU.new .Immediate =
      .ok (CPU.new.add_to_reg_a (CPU.new.read_mem 1)) :=
  adc_signed_unsigned_flags.2.1 CPU.new .Immediate 1 rfl

/-!  C3.  SBC is ADC on the complemented operand. -/

/-- The agreement property of C3 at one state and operand byte: with the
immediate operand cell holding `m` for SBC and the bitwise complement
`255 - m` for ADC, the two handlers succeed and produce identical
registers, flags, and program counter, and neither writes memory. -/
def SbcAdcAgree (st : CPU) (m : Nat) : Prop :=
  ∃ rS rA,
    CPU.sbc {st with mem := st.mem.write ((st.pc + 1) % 65536) m}
        .Immediate = .ok rS ∧
    CPU.adc {st with mem := st.mem.write ((st.pc + 1) % 65536) (255 - m)}
        .Immediate = .ok rA ∧
    rS.reg_a = rA.reg_a ∧ rS.reg_x = rA.reg_x ∧ rS.reg_y = rA.reg_y ∧
    rS.reg_status = rA.reg_status ∧ rS.pc = rA.pc ∧
    rS.mem = st.mem.write ((st.pc + 1) % 65536) m ∧
    rA.mem = st.mem.write ((st.pc + 1) % 65536) (255 - m)

/-- Concrete state for C3's worked example: `A = 0x01`, immediate
operand `0x01`, carry clear. -/
def c3state : CPU :=
  {CPU.new with
    reg_a := 1,
    pc := 0x8000,
    mem := CPU.new.mem.write 0x8001 1}

/-- C3: executing SBC with operand byte `m` has exactly the effects of
executing ADC with the complemented operand `255 - m` (shared adder);
and the worked example `A=0x01 - 0x01` with carry clear yields
`A=0xFF, N=1, C=0, V=0, Z=0`. -/
theorem sbc_matches_adc_on_complement :
    (∀ (st : CPU) (m : Nat), m < 256 → SbcAdcAgree st m) ∧
    ((CPU.sbc c3state .Immediate).map
      (fun s => (s.reg_a, s.reg_status.n, s.reg_status.c,
                 s.reg_status.v, s.reg_status.z)) =
      .ok (0xff, true, false, false, false)) := by
  constructor
  · intro st m hm
    refine ⟨{st.add_to_reg_a (255 - m) with
               mem := st.mem.write ((st.pc + 1) % 65536) m},
            {st.add_to_reg_a (255 - m) with
               mem := st.mem.write ((st.pc + 1) % 65536) (255 - m)},
            ?_, ?_, rfl, rfl, rfl, rfl, rfl, rfl, rfl⟩
    · rw [sbc_immediate_run]
      dsimp only [CPU.read_mem]
      rw [Mem.read_write_self, Nat.mod_eq_of_lt hm, add_to_reg_a_mem]
    · rw [adc_immediate_run]
      dsimp only [CPU.read_mem]
      rw [Mem.read_write_self, Nat.mod_eq_of_lt (by omega : 255 - m < 256),
          add_to_reg_a_mem]
  · rfl

/-- Witness for `sbc_matches_adc_on_complement` at `CPU.new`, `m = 1`. -/
theorem sbc_matches_adc_witness : SbcAdcAgree CPU.new 1 :=
  sbc_matches_adc_on_complement.1 CPU.new 1 (by decide)

/-!  C4.  16-bit memory accessor round trip and boundary policy. -/

/-- Big-endian recombination helper: appending a high byte above a low
byte smaller than 256. -/
theorem or256 (hi lo : Nat) (h : lo < 256) :
    (hi <<< 8) ||| lo = 256 * hi + lo := by
  apply Nat.eq_of_testBit_eq
  intro i
  rw [Nat.testBit_lor, Nat.testBit_shiftLeft]
  have h256 : (256 : Nat) = 2 ^ 8 := by norm_num
  rcases Nat.lt_or_ge i 8 with h8 | h8
  · have hge : ¬ (8 ≤ i) := by omega
    simp only [ge_iff_le, hge, decide_False, Bool.false_and, Bool.false_or]
    rw [Nat.testBit_to_div_mod, Nat.testBit_to_div_mod]
    have hk : 256 * hi = 2 ^ i * (2 * (2 ^ (7 - i) * hi)) := by
      rw [h256, show (2:Nat) ^ 8 = 2 ^ i * (2 * 2 ^ (7 - i)) by
        rw [show (2:Nat) * 2 ^ (7 - i) = 2 ^ (7 - i + 1) by
              rw [pow_succ]; ring,
            ← pow_add]
        congr 1
        omega]
      ring
    rw [hk, Nat.mul_add_div (show 0 < (2:Nat) ^ i by positivity)]
    rw [decide_eq_decide]
    generalize 2 ^ (7 - i) * hi = k
    generalize lo / 2 ^ i = q
    omega
  · have hlo : lo.testBit i = false :=
      Nat.testBit_eq_false_of_lt (lt_of_lt_of_le h (by
        rw [h256]
        exact Nat.pow_le_pow_right (by norm_num) h8))
    simp only [ge_iff_le, h8, decide_True, Bool.true_and, hlo, Bool.or_false]
    rw [Nat.testBit_to_div_mod, Nat.testBit_to_div_mod]
    have e1 : (256 * hi + lo) / 2 ^ i = hi / 2 ^ (i - 8) := by
      rw [show (2:Nat) ^ i = 2 ^ 8 * 2 ^ (i - 8) by
            rw [← pow_add]; congr 1; omega]
      rw [← Nat.div_div_eq_div_mul]
      rw [show (256:Nat) * hi + lo = 2 ^ 8 * hi + lo by rw [h256]]
      rw [Nat.mul_add_div (show 0 < (2:Nat) ^ 8 by positivity)]
      rw [Nat.div_eq_of_lt (show lo < 2 ^ 8 by omega)]
      simp
    rw [e1]

/-- C4: for every address other than 0xFFFF and every 16-bit value,
`write16` succeeds and `read16` reads the value back (little-endian);
at 0xFFFF both accessors fail with their out-of-range errors and the
failing `write16` leaves memory unchanged. -/
theorem write16_read16_roundtrip :
    (∀ (mm : Mem) (a v : Nat), a < 65536 → v < 65536 → a ≠ 0xffff →
      (mm.write16 a v).2 = .ok () ∧
      (mm.write16 a v).1.read16 a = .ok v) ∧
    (∀ (mm : Mem) (v : Nat),
      (mm.write16 0xffff v).1 = mm ∧
      (mm.write16 0xffff v).2 =
        .error "cannot write two bytes at address 0xffff" ∧
      mm.read16 0xffff =
        .error "cannot read two bytes starting from address 0xffff") := by
  constructor
  · intro mm a v ha hv hne
    have hma : a % 65536 = a := Nat.mod_eq_of_lt ha
    have hguard : ¬ (a % 65536 = MEM_ADDR_MAX) := by
      rw [hma]
      exact hne
    have ha1 : (a + 1) % 65536 = a + 1 := by
      apply Nat.mod_eq_of_lt
      have : a ≠ 65535 := hne
      omega
    constructor
    · simp only [Mem.write16]
      rw [if_neg hguard]
    · simp only [Mem.write16]
      rw [if_neg hguard]
      simp only [Mem.read16]
      rw [if_neg hguard]
      have hlo : ((mm.write a (v % 256)).write ((a + 1) % 65536)
          ((v % 65536) >>> 8)).read a = v % 256 := by
        rw [Mem.read_write_other, Mem.read_write_self]
        · omega
        · rw [hma, ha1]
          omega
      have hhi : ((mm.write a (v % 256)).write ((a + 1) % 65536)
          ((v % 65536) >>> 8)).read ((a + 1) % 65536) = v / 256 := by
        rw [Mem.read_write_self]
        rw [Nat.mod_eq_of_lt hv, Nat.shiftRight_eq_div_pow]
        norm_num
        omega
      rw [hlo, hhi, or256 _ _ (by omega)]
      congr 1
      omega
  · intro mm v
    refine ⟨?_, ?_, ?_⟩ <;> simp [Mem.write16, Mem.read16, MEM_ADDR_MAX]

/-- Witness for `write16_read16_roundtrip` at `Mem.new`, address 0,
value 0xabcd. -/
theorem write16_read16_roundtrip_witness :
    (Mem.new.write16 0 0xabcd).2 = .ok () ∧
    (Mem.new.write16 0 0xabcd).1.read16 0 = .ok 0xabcd :=
  write16_read16_roundtrip.1 Mem.new 0 0xabcd (by decide) (by decide)
    (by decide)

/-!  C8.  Program-counter advancement and the JMP/LDA/BRK program. -/

/-- The program of C8: `JMP $8004; BRK; LDA #$01; BRK`. -/
def c8program : List Nat := [0x4c, 0x04, 0x80, 0x00, 0xa9, 0x01, 0x00]

/-- C8: the dispatch loop advances the program counter by the opcode's
declared byte length exactly when the handler left it unchanged (by
value), and keeps the handler's program counter otherwise; and
interpreting `[JMP $8004, BRK, LDA #$01, BRK]` loaded at 0x8000 halts
with `A = 0x01` and an empty status register. -/
theorem dispatch_pc_advance_and_jmp_program :
    (∀ (st : CPU) (op : OpCode)
        (h : CPU → AddressingMode → Except Fatal CPU) (st1 : CPU),
      INSTRUCTION_HANDLERS op.code = some h →
      h st op.addressing_mode = .ok st1 →
      (st1.pc = st.pc →
        st.dispatch_instruction op =
          .ok ({st1 with pc := (st1.pc + op.bytes) % 65536},
               if op.code = OPCODE_BRK then false else true)) ∧
      (st1.pc ≠ st.pc →
        st.dispatch_instruction op =
          .ok (st1, if op.code = OPCODE_BRK then false else true))) ∧
    ((CPU.interpret CPU.new c8program 10).map
        (Option.map (fun st => (st.reg_a, st.reg_status))) =
      .ok (some (1, Status.empty))) := by
  constructor
  · intro st op h st1 hh hrun
    constructor
    · intro hpc
      simp only [CPU.dispatch_instruction, hh, hrun]
      rw [if_pos hpc.symm]
    · intro hne
      simp only [CPU.dispatch_instruction, hh, hrun]
      rw [if_neg (fun hq => hne hq.symm)]
  · rfl

/-- Witness for `dispatch_pc_advance_and_jmp_program` (dispatch part, at
the BRK table entry on the fresh CPU). -/
theorem dispatch_pc_advance_witness :
    CPU.new.dispatch_instruction ⟨0x00, "BRK", 1, 7, .NoneAddressing⟩ =
      .ok ({CPU.new with pc := 1}, false) :=
  (dispatch_pc_advance_and_jmp_program.1 CPU.new
    ⟨0x00, "BRK", 1, 7, .NoneAddressing⟩ CPU.brk CPU.new rfl rfl).1 rfl

/-!  C7.  The Z/N invariant for every flag-setting instruction. -/

/-- The Z/N invariant relative to a result value: Z is set iff the value
is zero, N is set iff its bit 7 is 1. -/
def ZNof (st' : CPU) (value : Nat) : Prop :=
  (st'.reg_status.z = true ↔ value = 0) ∧
  (st'.reg_status.n = true ↔ value.testBit 7 = true)

/-- A byte value stays below 256. -/
theorem Mem.read_lt (m : Mem) (a : Nat) : m.read a < 256 := by
  unfold Mem.read
  omega

/-- A byte value stays below 256 (CPU wrapper). -/
theorem CPU.read_mem_lt (st : CPU) (a : Nat) : st.read_mem a < 256 :=
  Mem.read_lt st.mem a

/-- Reducing twice modulo 256 is reducing once. -/
theorem mod256_mod256 (x : Nat) : x % 256 % 256 = x % 256 := by
  omega

/-- An or of two bytes is a byte. -/
theorem byte_lor_lt (a b : Nat) (ha : a < 256) (hb : b < 256) :
    (a ||| b) < 256 := by
  have h256 : (256 : Nat) = 2 ^ 8 := by norm_num
  rw [h256] at *
  exact Nat.or_lt_two_pow ha hb

/-- Z/N after the register write pattern used by loads and transfers. -/
theorem zn_nz_reg_a (st : CPU) :
    ZNof ((st.set_negative_flag st.reg_a).set_zero_flag st.reg_a)
      (((st.set_negative_flag st.reg_a).set_zero_flag st.reg_a).reg_a) := by
  rw [set_negative_flag_eq, set_zero_flag_eq]
  unfold ZNof
  constructor <;> simp

/-- Z/N after the register write pattern, X register. -/
theorem zn_nz_reg_x (st : CPU) :
    ZNof ((st.set_negative_flag st.reg_x).set_zero_flag st.reg_x)
      (((st.set_negative_flag st.reg_x).set_zero_flag st.reg_x).reg_x) := by
  rw [set_negative_flag_eq, set_zero_flag_eq]
  unfold ZNof
  constructor <;> simp

/-- Z/N after the register write pattern, Y register. -/
theorem zn_nz_reg_y (st : CPU) :
    ZNof ((st.set_negative_flag st.reg_y).set_zero_flag st.reg_y)
      (((st.set_negative_flag st.reg_y).set_zero_flag st.reg_y).reg_y) := by
  rw [set_negative_flag_eq, set_zero_flag_eq]
  unfold ZNof
  constructor <;> simp

/-- Z/N after `set_reg_a`. -/
theorem zn_set_reg_a_self (st : CPU) (w : Nat) :
    ZNof (st.set_reg_a w) ((st.set_reg_a w).reg_a) := by
  rw [set_reg_a_eq]
  unfold ZNof
  constructor <;> simp

/-- Z/N after `add_to_reg_a`. -/
theorem zn_add_self (st : CPU) (v : Nat) :
    ZNof (st.add_to_reg_a v) ((st.add_to_reg_a v).reg_a) := by
  simp only [CPU.add_to_reg_a, set_reg_a_eq]
  split_ifs <;> (unfold ZNof; constructor <;> simp)

/-- Z/N after the read-modify-write pattern used by memory shifts: the
flags are recomputed from the stored value, which reads back from the
written cell. -/
theorem zn_after_write_flags (st : CPU) (addr v : Nat) (hv : v < 256) :
    ZNof (((st.write_mem addr v).set_zero_flag v).set_negative_flag v)
      ((((st.write_mem addr v).set_zero_flag v).set_negative_flag v).mem.read
        addr) := by
  rw [set_zero_flag_eq, set_negative_flag_eq]
  unfold ZNof
  dsimp only [CPU.write_mem]
  rw [Mem.read_write_self, Nat.mod_eq_of_lt hv]
  constructor <;> simp

/-- C7: for every flag-setting instruction of the implemented set
(loads, transfers, logic, shifts in both forms, increment, ADC/SBC),
after execution Z is set iff the written result value is zero and N is
set iff bit 7 of that value is 1 — the value written to the destination
register, or, for the memory forms of the shifts, the value written
back to the resolved memory cell. -/
theorem flag_setting_zn_invariant :
    (∀ (st : CPU) (mode : AddressingMode) (st' : CPU),
      CPU.lda st mode = .ok st' → ZNof st' st'.reg_a) ∧
    (∀ (st : CPU) (mode : AddressingMode) (st' : CPU),
      CPU.ldx st mode = .ok st' → ZNof st' st'.reg_x) ∧
    (∀ (st : CPU) (mode : AddressingMode) (st' : CPU),
      CPU.ldy st mode = .ok st' → ZNof st' st'.reg_y) ∧
    (∀ (st : CPU) (mode : AddressingMode) (st' : CPU),
      CPU.tax st mode = .ok st' → ZNof st' st'.reg_x) ∧
    (∀ (st : CPU) (mode : AddressingMode) (st' : CPU),
      CPU.tay st mode = .ok st' → ZNof st' st'.reg_y) ∧
    (∀ (st : CPU) (mode : AddressingMode) (st' : CPU),
      CPU.txa st mode = .ok st' → ZNof st' st'.reg_a) ∧
    (∀ (st : CPU) (mode : AddressingMode) (st' : CPU),
      CPU.tya st mode = .ok st' → ZNof st' st'.reg_a) ∧
    (∀ (st : CPU) (mode : AddressingMode) (st' : CPU),
      CPU.and st mode = .ok st' → ZNof st' st'.reg_a) ∧
    (∀ (st : CPU) (mode : AddressingMode) (st' : CPU),
      CPU.eor st mode = .ok st' → ZNof st' st'.reg_a) ∧
    (∀ (st : CPU) (mode : AddressingMode) (st' : CPU),
      CPU.ora st mode = .ok st' → ZNof st' st'.reg_a) ∧
    (∀ (st : CPU) (mode : AddressingMode) (st' : CPU),
      CPU.inx st mode = .ok st' → ZNof st' st'.reg_x) ∧
    (∀ (st : CPU) (mode : AddressingMode) (st' : CPU),
      CPU.adc st mode = .ok st' → ZNof st' st'.reg_a) ∧
    (∀ (st : CPU) (mode : AddressingMode) (st' : CPU),
      CPU.sbc st mode = .ok st' → ZNof st' st'.reg_a) ∧
    (∀ (st : CPU) (st' : CPU),
      CPU.asl st .Accumulator = .ok st' → ZNof st' st'.reg_a) ∧
    (∀ (st : CPU) (mode : AddressingMode) (st' : CPU) (addr : Nat),
      mode ≠ .Accumulator →
      CPU.asl st mode = .ok st' →
      st.read_mem_operand st.get_operand_address mode = .ok addr →
      ZNof st' (st'.mem.read addr)) ∧
    (∀ (st : CPU) (st' : CPU),
      CPU.lsr st .Accumulator = .ok st' → ZNof st' st'.reg_a) ∧
    (∀ (st : CPU) (mode : AddressingMode) (st' : CPU) (addr : Nat),
      mode ≠ .Accumulator →
      CPU.lsr st mode = .ok st' →
      st.read_mem_operand st.get_operand_address mode = .ok addr →
      ZNof st' (st'.mem.read addr)) ∧
    (∀ (st : CPU) (st' : CPU),
      CPU.rol st .Accumulator = .ok st' → ZNof st' st'.reg_a) ∧
    (∀ (st : CPU) (mode : AddressingMode) (st' : CPU) (addr : Nat),
      mode ≠ .Accumulator →
      CPU.rol st mode = .ok st' →
      st.read_mem_operand st.get_operand_address mode = .ok addr →
      ZNof st' (st'.mem.read addr)) ∧
    (∀ (st : CPU) (st' : CPU),
      CPU.ror st .Accumulator = .ok st' → ZNof st' st'.reg_a) ∧
    (∀ (st : CPU) (mode : AddressingMode) (st' : CPU) (addr : Nat),
      mode ≠ .Accumulator →
      CPU.ror st mode = .ok st' →
      st.read_mem_operand st.get_operand_address mode = .ok addr →
      ZNof st' (st'.mem.read addr)) := by
  refine ⟨?_, ?_, ?_, ?_, ?_, ?_, ?_, ?_, ?_, ?_, ?_, ?_, ?_, ?_, ?_, ?_,
          ?_, ?_, ?_, ?_, ?_⟩
  · intro st mode st' hrun
    unfold CPU.lda at hrun
    cases hres : st.read_mem_operand st.get_operand_address mode <;>
      rw [hres] at hrun <;> dsimp only at hrun
    · exact Except.noConfusion hrun
    · injection hrun with h2
      subst h2
      exact zn_nz_reg_a _
  · intro st mode st' hrun
    unfold CPU.ldx at hrun
    cases hres : st.read_mem_operand st.get_operand_address mode <;>
      rw [hres] at hrun <;> dsimp only at hrun
    · exact Except.noConfusion hrun
    · injection hrun with h2
      subst h2
      exact zn_nz_reg_x _
  · intro st mode st' hrun
    unfold CPU.ldy at hrun
    cases hres : st.read_mem_operand st.get_operand_address mode <;>
      rw [hres] at hrun <;> dsimp only at hrun
    · exact Except.noConfusion hrun
    · injection hrun with h2
      subst h2
      exact zn_nz_reg_y _
  · intro st mode st' hrun
    unfold CPU.tax at hrun
    injection hrun with h2
    subst h2
    exact zn_nz_reg_x _
  · intro st mode st' hrun
    unfold CPU.tay at hrun
    injection hrun with h2
    subst h2
    exact zn_nz_reg_y _
  · intro st mode st' hrun
    unfold CPU.txa at hrun
    injection hrun with h2
    subst h2
    exact zn_nz_reg_a _
  · intro st mode st' hrun
    unfold CPU.tya at hrun
    injection hrun with h2
    subst h2
    exact zn_nz_reg_a _
  · intro st mode st' hrun
    unfold CPU.and at hrun
    cases hres : st.read_mem_operand st.get_operand_address mode <;>
      rw [hres] at hrun <;> dsimp only at hrun
    · exact Except.noConfusion hrun
    · injection hrun with h2
      subst h2
      exact zn_set_reg_a_self _ _
  · intro st mode st' hrun
    unfold CPU.eor at hrun
    cases hres : st.read_mem_operand st.get_operand_address mode <;>
      rw [hres] at hrun <;> dsimp only at hrun
    · exact Except.noConfusion hrun
    · injection hrun with h2
      subst h2
      exact zn_set_reg_a_self _ _
  · intro st mode st' hrun
    unfold CPU.ora at hrun
    cases hres : st.read_mem_operand st.get_operand_address mode <;>
      rw [hres] at hrun <;> dsimp only at hrun
    · exact Except.noConfusion hrun
    · injection hrun with h2
      subst h2
      exact zn_set_reg_a_self _ _
  · intro st mode st' hrun
    unfold CPU.inx at hrun
    injection hrun with h2
    subst h2
    exact zn_nz_reg_x _
  · intro st mode st' hrun
    unfold CPU.adc at hrun
    cases hres : st.read_mem_operand st.get_operand_address mode <;>
      rw [hres] at hrun <;> dsimp only at hrun
    · exact Except.noConfusion hrun
    · injection hrun with h2
      subst h2
      exact zn_add_self _ _
  · intro st mode st' hrun
    unfold CPU.sbc at hrun
    cases hres : st.read_mem_operand st.get_operand_address mode <;>
      rw [hres] at hrun <;> dsimp only at hrun
    · exact Except.noConfusion hrun
    · injection hrun with h2
      subst h2
      exact zn_add_self _ _
  · intro st st' hrun
    unfold CPU.asl at hrun
    split_ifs at hrun <;>
      (injection hrun with h2
       subst h2
       exact zn_set_reg_a_self _ _)
  · intro st mode st' addr hne hrun hres
    cases mode
    case Accumulator => exact absurd rfl hne
    all_goals (
      unfold CPU.asl at hrun;
      rw [hres] at hrun;
      dsimp only at hrun;
      split_ifs at hrun <;>
        (injection hrun with h2
         subst h2
         exact zn_after_write_flags _ addr _ (by omega)))
  · intro st st' hrun
    unfold CPU.lsr at hrun
    split_ifs at hrun <;>
      (injection hrun with h2
       subst h2
       exact zn_set_reg_a_self _ _)
  · intro st mode st' addr hne hrun hres
    cases mode
    case Accumulator => exact absurd rfl hne
    all_goals (
      unfold CPU.lsr at hrun;
      rw [hres] at hrun;
      dsimp only at hrun;
      split_ifs at hrun <;>
        (injection hrun with h2
         subst h2
         exact zn_after_write_flags _ addr _ (by
           rw [Nat.shiftRight_eq_div_pow]
           have := CPU.read_mem_lt st addr
           omega)))
  · intro st st' hrun
    unfold CPU.rol at hrun
    dsimp only at hrun
    split_ifs at hrun <;>
      (injection hrun with h2
       subst h2
       exact zn_set_reg_a_self _ _)
  · intro st mode st' addr hne hrun hres
    cases mode
    case Accumulator => exact absurd rfl hne
    all_goals (
      unfold CPU.rol at hrun;
      rw [hres] at hrun;
      dsimp only at hrun;
      split_ifs at hrun <;>
        (injection hrun with h2
         subst h2
         exact zn_after_write_flags _ addr _
           (byte_lor_lt _ _ (by omega) (by decide))))
  · intro st st' hrun
    unfold CPU.ror at hrun
    dsimp only at hrun
    split_ifs at hrun <;>
      (injection hrun with h2
       subst h2
       exact zn_set_reg_a_self _ _)
  · intro st mode st' addr hne hrun hres
    cases mode
    case Accumulator => exact absurd rfl hne
    all_goals (
      unfold CPU.ror at hrun;
      rw [hres] at hrun;
      dsimp only at hrun;
      split_ifs at hrun <;>
        (injection hrun with h2
         subst h2
         exact zn_after_write_flags _ addr _
           (byte_lor_lt _ _ (by
              rw [Nat.shiftRight_eq_div_pow]
              have := CPU.read_mem_lt st addr
              omega) (by decide))))

/-- Witness for `flag_setting_zn_invariant`, applying the INX part at the
fresh CPU (X goes from 0 to 1, so Z and N are clear). -/
theorem flag_setting_zn_invariant_witness :
    ZNof {CPU.new with reg_x := 1} ({CPU.new with reg_x := 1} : CPU).reg_x :=
  flag_setting_zn_invariant.2.2.2.2.2.2.2.2.2.2.1 CPU.new .NoneAddressing
    {CPU.new with reg_x := 1} rfl

end Nes
